import Mathlib

/-!
Verification of the platform driver finite-state machine of
`ion/agents/platform/platform_driver.py` (coi-services).

The data model (states, events, transition table) and every event handler
are translated from `platform_driver.py`.  The generic FSM engine
(`ThreadSafeFSM` of `pyon.agent.instrument_fsm`) is not part of the sources,
so its dispatch loop (`on_event`, `get_events`) is modelled from the spec,
section 4.1.  Exception classes (`ion.agents.platform.exceptions`,
`pyon.agent.instrument_fsm.FSMError`) are likewise not in the sources and
are modelled from the spec's error taxonomy as a flat enumeration of the
fault kinds the handlers distinguish.

Python side effects are made explicit: the driver record carries, besides
the FSM state, the stored configuration and the (ghost) traces of emitted
notifications and invoked device primitives, in order.
-/

/-- States of the platform driver FSM (`PlatformDriverState`). -/
inductive PlatformDriverState where
  | UNCONFIGURED
  | DISCONNECTED
  | CONNECTED
deriving DecidableEq

/-- Events of the platform driver FSM (`PlatformDriverEvent`). -/
inductive PlatformDriverEvent where
  | ENTER
  | EXIT
  | CONFIGURE
  | CONNECT
  | CONNECTION_LOST
  | DISCONNECT
  | PING
  | GET
  | SET
  | EXECUTE
deriving DecidableEq

/-- Listing of all states, as `PlatformDriverState.list()` of `BaseEnum`. -/
def PlatformDriverState.list : List PlatformDriverState :=
  [.UNCONFIGURED, .DISCONNECTED, .CONNECTED]

/-- Listing of all events, as `PlatformDriverEvent.list()` of `BaseEnum`. -/
def PlatformDriverEvent.list : List PlatformDriverEvent :=
  [.ENTER, .EXIT, .CONFIGURE, .CONNECT, .CONNECTION_LOST, .DISCONNECT,
   .PING, .GET, .SET, .EXECUTE]

/-- Modelled from the spec: the exception classes raised/caught by the
driver (`ion.agents.platform.exceptions` and `FSMError` are not among the
sources).  `fsmError` carries a numeric code standing for the message:
0 = no handler for (state, event), 1 = missing driver_config argument,
2 = missing attrs argument, 3 = missing resource_cmd argument. -/
inductive Exc where
  | platformConnectionException
  | platformDriverException
  | notImplementedError
  | fsmError (code : Nat)
  | otherException (code : Nat)
deriving DecidableEq

/-- Values returned by handlers and device primitives.  Python's `None` is
`vnone`; a state value returned as a result is `vstate`; other device
results are abstracted as numbered tokens `vnat`. -/
inductive Value where
  | vnone
  | vstate (s : PlatformDriverState)
  | vnat (n : Nat)
deriving DecidableEq

/-- Driver configurations are opaque blobs; abstracted as numbers. -/
abbrev DriverConfig := Nat

/-- Outbound notification objects sent to the listener callback via
`_notify_driver_event`: `StateChangeDriverEvent(state)` and
`AsyncAgentEvent(PlatformAgentEvent.LOST_CONNECTION)`. -/
inductive DriverNotification where
  | stateChangeDriverEvent (state : PlatformDriverState)
  | asyncAgentEventLostConnection
deriving DecidableEq

/-- Ghost trace tags: which device primitive was invoked. -/
inductive DeviceCall where
  | connectCall
  | disconnectCall
  | pingCall
  | getCall
  | setCall
  | executeCall
deriving DecidableEq

/-- Behaviour of the device primitives of a (sub)class instance: each
primitive either returns a value or raises.  In the base class every
primitive raises `NotImplementedError` (see `baseDeviceBehavior`). -/
structure DeviceBehavior where
  connectResult : Except Exc Value
  disconnectResult : Except Exc Value
  pingResult : Except Exc Value
  getAttributeValuesResult : Except Exc Value
  setAttributeValuesResult : Except Exc Value
  executeResult : Except Exc Value
  getResult : Except Exc Value
  getExternalChecksumResult : Except Exc Value

/-- The subclass-variable parts of a driver: the configuration validator
hook `validate_driver_configuration` (returns the exception it raises,
or `none` when it passes) and the device primitives. -/
structure DriverClass where
  validate : DriverConfig → Option Exc
  device : DeviceBehavior

/-- Device behaviour of the base class `PlatformDriver`: every primitive
(`connect`, `disconnect`, `ping`, `get_attribute_values`,
`set_attribute_values`, `execute`, `get`, `get_external_checksum`)
raises `NotImplementedError`. -/
def baseDeviceBehavior : DeviceBehavior :=
  { connectResult := .error .notImplementedError
    disconnectResult := .error .notImplementedError
    pingResult := .error .notImplementedError
    getAttributeValuesResult := .error .notImplementedError
    setAttributeValuesResult := .error .notImplementedError
    executeResult := .error .notImplementedError
    getResult := .error .notImplementedError
    getExternalChecksumResult := .error .notImplementedError }

/-- The base class itself: `validate_driver_configuration` does nothing
(never raises) and the primitives are the unimplemented ones. -/
def basePlatformDriverClass : DriverClass :=
  { validate := fun _ => none
    device := baseDeviceBehavior }

/-- A driver instance: its class behaviour, the FSM current state, the
stored `_driver_config`, the keys of `_param_dict`, and the ghost traces
of emitted notifications and invoked device primitives (in order). -/
structure PlatformDriver where
  cls : DriverClass
  fsmState : PlatformDriverState
  driver_config : Option DriverConfig
  param_dict : List Nat
  notifications : List DriverNotification
  deviceCalls : List DeviceCall

/-- A freshly constructed driver: FSM started at UNCONFIGURED, no stored
configuration, empty parameter dictionary, nothing emitted or invoked. -/
def mkDriver (cls : DriverClass) : PlatformDriver :=
  { cls := cls
    fsmState := .UNCONFIGURED
    driver_config := none
    param_dict := []
    notifications := []
    deviceCalls := [] }

/-- Record an invocation of a device primitive (ghost trace). -/
def PlatformDriver.logCall (d : PlatformDriver) (c : DeviceCall) : PlatformDriver :=
  { d with deviceCalls := d.deviceCalls ++ [c] }

/-- Send a driver event to the agent (`_notify_driver_event`, which calls
the `_send_event` listener callback). -/
def PlatformDriver.notify (d : PlatformDriver) (n : DriverNotification) : PlatformDriver :=
  { d with notifications := d.notifications ++ [n] }

/-- The `configure` method: calls `validate_driver_configuration` and then
assigns the given config to `_driver_config`.  If validation raises, the
assignment is not reached and the exception propagates; the method itself
returns Python `None`. -/
def PlatformDriver.configure (d : PlatformDriver) (cfg : DriverConfig) :
    PlatformDriver × Except Exc Value :=
  match d.cls.validate cfg with
  | some e => (d, .error e)
  | none => ({ d with driver_config := some cfg }, .ok .vnone)

/-- The `_connection_lost` supporting method: does a regular `disconnect()`
with any exception it raises logged and ignored (so the result stays
`None` in that case), then unconditionally notifies the agent with
`AsyncAgentEvent(LOST_CONNECTION)`, and returns next state DISCONNECTED
together with the (possibly null) disconnect result. -/
def PlatformDriver.connection_lost (d : PlatformDriver) :
    PlatformDriver × (Option PlatformDriverState × Value) :=
  (((d.logCall .disconnectCall).notify .asyncAgentEventLostConnection),
   (some .DISCONNECTED,
    match d.cls.device.disconnectResult with
    | .ok v => v
    | .error _ => Value.vnone))

/-- Tags for the handler functions registered in `_construct_fsm`. -/
inductive Handler where
  | commonStateEnter
  | commonStateExit
  | unconfiguredConfigure
  | disconnectedConnect
  | disconnectedDisconnect
  | connectedDisconnect
  | connectedConnectionLost
  | connectedPing
  | connectedGet
  | connectedSet
  | connectedExecute
deriving DecidableEq

/-- The transition table built by `_construct_fsm`: ENTER/EXIT handlers for
every state, CONFIGURE in UNCONFIGURED, CONNECT/DISCONNECT in
DISCONNECTED, and DISCONNECT/CONNECTION_LOST/PING/GET/SET/EXECUTE in
CONNECTED. -/
def transitionTable (s : PlatformDriverState) (e : PlatformDriverEvent) :
    Option Handler :=
  match e with
  | .ENTER => some .commonStateEnter
  | .EXIT => some .commonStateExit
  | .CONFIGURE => if s = .UNCONFIGURED then some .unconfiguredConfigure else none
  | .CONNECT => if s = .DISCONNECTED then some .disconnectedConnect else none
  | .CONNECTION_LOST => if s = .CONNECTED then some .connectedConnectionLost else none
  | .DISCONNECT =>
      match s with
      | .UNCONFIGURED => none
      | .DISCONNECTED => some .disconnectedDisconnect
      | .CONNECTED => some .connectedDisconnect
  | .PING => if s = .CONNECTED then some .connectedPing else none
  | .GET => if s = .CONNECTED then some .connectedGet else none
  | .SET => if s = .CONNECTED then some .connectedSet else none
  | .EXECUTE => if s = .CONNECTED then some .connectedExecute else none

/-- Arguments of an FSM event: the positional `*args` and the `**kwargs`
entries the handlers read (`driver_config`, `attrs`, `recursion`). -/
structure EventArgs where
  args : List Value
  driver_config : Option DriverConfig
  attrs : Option (List (Nat × Value))
  recursion : Option Value
deriving DecidableEq

/-- Run one handler.  Returns the updated driver and either the raised
exception or the handler's `(next_state, result)` pair, exactly as the
corresponding Python handler of `platform_driver.py` computes them.
The CONFIGURE handler's call to the `configure` method is inlined here
(validate, then assign `_driver_config`; only a `PlatformDriverException`
is caught); `PlatformDriver.configure` states the same method separately. -/
def runHandler (h : Handler) (d : PlatformDriver) (a : EventArgs) :
    PlatformDriver × Except Exc (Option PlatformDriverState × Value) :=
  match h with
  | .commonStateEnter =>
      (d.notify (.stateChangeDriverEvent d.fsmState), .ok (none, .vnone))
  | .commonStateExit =>
      (d, .ok (none, .vnone))
  | .unconfiguredConfigure =>
      match a.driver_config with
      | none => (d, .error (.fsmError 1))
      | some cfg =>
          match d.cls.validate cfg with
          | none =>
              ({ d with driver_config := some cfg },
               .ok (some .DISCONNECTED, .vnone))
          | some e =>
              if e = .platformDriverException then (d, .ok (none, .vnone))
              else (d, .error e)
  | .disconnectedConnect =>
      let d1 := d.logCall .connectCall
      match d.cls.device.connectResult with
      | .error e => (d1, .error e)
      | .ok _ => (d1, .ok (some .CONNECTED, .vstate .CONNECTED))
  | .disconnectedDisconnect =>
      (d, .ok (none, .vnone))
  | .connectedDisconnect =>
      let d1 := d.logCall .disconnectCall
      match d.cls.device.disconnectResult with
      | .error e => (d1, .error e)
      | .ok v => (d1, .ok (some .DISCONNECTED, v))
  | .connectedConnectionLost =>
      (d.connection_lost.1, .ok d.connection_lost.2)
  | .connectedPing =>
      let d1 := d.logCall .pingCall
      match d.cls.device.pingResult with
      | .ok v => (d1, .ok (none, v))
      | .error e =>
          if e = .platformConnectionException then
            (d1.connection_lost.1, .ok d1.connection_lost.2)
          else (d1, .error e)
  | .connectedGet =>
      let d1 := d.logCall .getCall
      match d.cls.device.getResult with
      | .ok v => (d1, .ok (none, v))
      | .error e =>
          if e = .platformConnectionException then
            (d1.connection_lost.1, .ok d1.connection_lost.2)
          else (d1, .error e)
  | .connectedSet =>
      match a.attrs with
      | none => (d, .error (.fsmError 2))
      | some _ =>
          let d1 := d.logCall .setCall
          match d.cls.device.setAttributeValuesResult with
          | .ok v => (d1, .ok (none, v))
          | .error e =>
              if e = .platformConnectionException then
                (d1.connection_lost.1, .ok d1.connection_lost.2)
              else (d1, .error e)
  | .connectedExecute =>
      match a.args with
      | [] => (d, .error (.fsmError 3))
      | _ :: _ =>
          let d1 := d.logCall .executeCall
          match d.cls.device.executeResult with
          | .ok v => (d1, .ok (none, v))
          | .error e =>
              if e = .platformConnectionException then
                (d1.connection_lost.1, .ok d1.connection_lost.2)
              else (d1, .error e)

/-- Modelled from the spec: the transition step of the FSM engine
(`ThreadSafeFSM`, not among the sources).  Invoke the EXIT handler of the
old state discarding its return, mutate the current state, then invoke
the ENTER handler of the new state. -/
def doTransition (d : PlatformDriver) (a : EventArgs) (ns : PlatformDriverState) :
    PlatformDriver :=
  let d2 :=
    match transitionTable d.fsmState .EXIT with
    | some hx => (runHandler hx d a).1
    | none => d
  let d3 := { d2 with fsmState := ns }
  match transitionTable d3.fsmState .ENTER with
  | some he => (runHandler he d3 a).1
  | none => d3

/-- Modelled from the spec: `on_event` of the FSM engine (`ThreadSafeFSM`,
not among the sources).  Look up the handler for (current state, event);
raise a "no such transition" FSM error when none is registered; invoke
the handler; when it raises, propagate with no transition; when it
returns a non-null next state, perform the transition (EXIT, mutate,
ENTER); return the handler's result. -/
def on_event (d : PlatformDriver) (e : PlatformDriverEvent) (a : EventArgs) :
    PlatformDriver × Except Exc Value :=
  match transitionTable d.fsmState e with
  | none => (d, .error (.fsmError 0))
  | some h =>
      match runHandler h d a with
      | (d1, .error exc) => (d1, .error exc)
      | (d1, .ok (none, result)) => (d1, .ok result)
      | (d1, .ok (some ns, result)) => (doTransition d1 a ns, .ok result)

/-- Modelled from the spec: `get_events` of the FSM engine — the events
with a registered handler for the current state when `current_state` is
true, otherwise across all states. -/
def get_events (d : PlatformDriver) (current_state : Bool) :
    List PlatformDriverEvent :=
  if current_state then
    PlatformDriverEvent.list.filter (fun e => (transitionTable d.fsmState e).isSome)
  else
    PlatformDriverEvent.list.filter
      (fun e => PlatformDriverState.list.any (fun s => (transitionTable s e).isSome))

/-- Membership test of the base capability enum `PlatformDriverCapability`
(`has`): the enum declares no members, so the test is always false. -/
def PlatformDriverCapability_has (_e : PlatformDriverEvent) : Bool := false

/-- The `_filter_capabilities` method, keeping the membership test of the
capability enum abstract: the base class filters the event list by
`PlatformDriverCapability.has`. -/
def filter_capabilities (has : PlatformDriverEvent → Bool)
    (events : List PlatformDriverEvent) : List PlatformDriverEvent :=
  events.filter (fun x => has x)

/-- The `get_resource_capabilities` method of the base class: the events of
the requested scope filtered by the (empty) base capability enum, paired
with the keys of `_param_dict`. -/
def get_resource_capabilities (d : PlatformDriver) (current_state : Bool) :
    List PlatformDriverEvent × List Nat :=
  (filter_capabilities PlatformDriverCapability_has (get_events d current_state),
   d.param_dict)

/-- Boolean test for a state-change notification. -/
def isStateChange : DriverNotification → Bool
  | .stateChangeDriverEvent _ => true
  | .asyncAgentEventLostConnection => false

/-- Number of state-change notifications in a trace. -/
def stateChangeCount (l : List DriverNotification) : Nat :=
  (l.filter isStateChange).length

/-- Boolean test for a disconnect invocation. -/
def isDisconnectCall : DeviceCall → Bool
  | .disconnectCall => true
  | _ => false

/-- Number of `disconnect()` attempts in a device-call trace. -/
def disconnectAttempts (l : List DeviceCall) : Nat :=
  (l.filter isDisconnectCall).length

/-- Boolean test for a `set_attribute_values` invocation. -/
def isSetCall : DeviceCall → Bool
  | .setCall => true
  | _ => false

/-- Event arguments with nothing supplied. -/
def noArgs : EventArgs :=
  { args := [], driver_config := none, attrs := none, recursion := none }

/-- A fresh base-class driver (state UNCONFIGURED). -/
def d0 : PlatformDriver := mkDriver basePlatformDriverClass

/-- Event arguments carrying only a `driver_config` entry. -/
def cfgArgs : EventArgs :=
  { args := [], driver_config := some 7, attrs := none, recursion := none }

/-- No handler ever mutates the FSM state field itself; only the engine's
transition step does. -/
theorem runHandler_preserves_fsmState (h : Handler) (d : PlatformDriver)
    (a : EventArgs) : (runHandler h d a).1.fsmState = d.fsmState := by
  cases h <;>
    simp only [runHandler, PlatformDriver.configure, PlatformDriver.connection_lost,
      PlatformDriver.logCall, PlatformDriver.notify] <;>
    (repeat' split) <;> rfl

/-- The engine's transition step: the EXIT hook of the old state leaves the
driver unchanged, the state is mutated, and the ENTER hook of the new
state appends exactly one state-change notification for the new state. -/
theorem doTransition_eq (d : PlatformDriver) (a : EventArgs)
    (ns : PlatformDriverState) :
    doTransition d a ns =
      { d with fsmState := ns,
               notifications :=
                 d.notifications ++ [.stateChangeDriverEvent ns] } := rfl

/-- A handler that requests a transition has only appended notifications,
none of which is a state-change notification. -/
theorem runHandler_transition_notifications (h : Handler) (d : PlatformDriver)
    (a : EventArgs) (ns : PlatformDriverState) (res : Value)
    (hh : (runHandler h d a).2 = Except.ok (some ns, res)) :
    ∃ δ, (runHandler h d a).1.notifications = d.notifications ++ δ ∧
      stateChangeCount δ = 0 := by
  cases h with
  | commonStateEnter => simp [runHandler] at hh
  | commonStateExit => simp [runHandler] at hh
  | unconfiguredConfigure =>
      simp only [runHandler, PlatformDriver.configure] at hh ⊢
      cases hdc : a.driver_config with
      | none => simp [hdc] at hh
      | some cfg =>
          simp only [hdc] at hh ⊢
          cases hv : d.cls.validate cfg with
          | none =>
              simp only [hv] at hh ⊢
              exact ⟨[], by simp, rfl⟩
          | some e =>
              by_cases he : e = .platformDriverException <;> simp [hv, he] at hh
  | disconnectedConnect =>
      simp only [runHandler, PlatformDriver.logCall] at hh ⊢
      cases hc : d.cls.device.connectResult with
      | error e => simp [hc] at hh
      | ok v => exact ⟨[], by simp [hc], rfl⟩
  | disconnectedDisconnect => simp [runHandler] at hh
  | connectedDisconnect =>
      simp only [runHandler, PlatformDriver.logCall] at hh ⊢
      cases hc : d.cls.device.disconnectResult with
      | error e => simp [hc] at hh
      | ok v => exact ⟨[], by simp [hc], rfl⟩
  | connectedConnectionLost =>
      exact ⟨[.asyncAgentEventLostConnection],
        by simp [runHandler, PlatformDriver.connection_lost,
          PlatformDriver.logCall, PlatformDriver.notify], rfl⟩
  | connectedPing =>
      simp only [runHandler, PlatformDriver.logCall] at hh ⊢
      cases hc : d.cls.device.pingResult with
      | ok v => simp [hc] at hh
      | error e =>
          by_cases he : e = .platformConnectionException
          · exact ⟨[.asyncAgentEventLostConnection],
              by simp [hc, he, PlatformDriver.connection_lost,
                PlatformDriver.logCall, PlatformDriver.notify], rfl⟩
          · simp [hc, he] at hh
  | connectedGet =>
      simp only [runHandler, PlatformDriver.logCall] at hh ⊢
      cases hc : d.cls.device.getResult with
      | ok v => simp [hc] at hh
      | error e =>
          by_cases he : e = .platformConnectionException
          · exact ⟨[.asyncAgentEventLostConnection],
              by simp [hc, he, PlatformDriver.connection_lost,
                PlatformDriver.logCall, PlatformDriver.notify], rfl⟩
          · simp [hc, he] at hh
  | connectedSet =>
      simp only [runHandler, PlatformDriver.logCall] at hh ⊢
      cases hat : a.attrs with
      | none => simp [hat] at hh
      | some l =>
          simp only [hat] at hh ⊢
          cases hc : d.cls.device.setAttributeValuesResult with
          | ok v => simp [hc] at hh
          | error e =>
              by_cases he : e = .platformConnectionException
              · exact ⟨[.asyncAgentEventLostConnection],
                  by simp [hc, he, PlatformDriver.connection_lost,
                    PlatformDriver.logCall, PlatformDriver.notify], rfl⟩
              · simp [hc, he] at hh
  | connectedExecute =>
      simp only [runHandler, PlatformDriver.logCall] at hh ⊢
      cases har : a.args with
      | nil => simp [har] at hh
      | cons v vs =>
          simp only [har] at hh ⊢
          cases hc : d.cls.device.executeResult with
          | ok v => simp [hc] at hh
          | error e =>
              by_cases he : e = .platformConnectionException
              · exact ⟨[.asyncAgentEventLostConnection],
                  by simp [hc, he, PlatformDriver.connection_lost,
                    PlatformDriver.logCall, PlatformDriver.notify], rfl⟩
              · simp [hc, he] at hh

/-- C3: when CONFIGURE is processed in UNCONFIGURED and the validator
raises a `PlatformDriverException`, the handler returns a null result
with no state transition: the driver (state, stored configuration,
notification and device-call traces) is entirely unchanged. -/
theorem configure_validation_fault_no_transition (d : PlatformDriver)
    (a : EventArgs) (cfg : DriverConfig)
    (hs : d.fsmState = .UNCONFIGURED)
    (ha : a.driver_config = some cfg)
    (hv : d.cls.validate cfg = some .platformDriverException) :
    on_event d .CONFIGURE a = (d, .ok .vnone) := by
  simp [on_event, transitionTable, runHandler, hs, ha, hv]

/-- C3 witness: a driver whose validator always raises stays UNCONFIGURED
with a null result. -/
def rejectingClass : DriverClass :=
  { validate := fun _ => some .platformDriverException
    device := baseDeviceBehavior }

/-- The rejecting driver instance used as concrete input. -/
def dReject : PlatformDriver := mkDriver rejectingClass

/-- Witness for C3 at a concrete driver and configuration. -/
theorem configure_validation_fault_no_transition_witness :
    on_event dReject .CONFIGURE cfgArgs = (dReject, .ok .vnone) :=
  configure_validation_fault_no_transition dReject cfgArgs 7 rfl rfl rfl

/-- C4: when CONFIGURE is processed in UNCONFIGURED with a configuration
the validator accepts, the driver stores that configuration verbatim in
`_driver_config`, transitions to DISCONNECTED (emitting the ENTER
state-change notification), and the handler result is null. -/
theorem configure_success_stores_config (d : PlatformDriver)
    (a : EventArgs) (cfg : DriverConfig)
    (hs : d.fsmState = .UNCONFIGURED)
    (ha : a.driver_config = some cfg)
    (hv : d.cls.validate cfg = none) :
    on_event d .CONFIGURE a =
      ({ d with fsmState := .DISCONNECTED,
                driver_config := some cfg,
                notifications := d.notifications ++
                  [.stateChangeDriverEvent .DISCONNECTED] },
       .ok .vnone) := by
  simp [on_event, transitionTable, runHandler, doTransition_eq, hs, ha, hv]

/-- Witness for C4: the fresh base driver stores configuration 7 and lands
in DISCONNECTED. -/
theorem configure_success_stores_config_witness :
    on_event d0 .CONFIGURE cfgArgs =
      ({ d0 with fsmState := .DISCONNECTED,
                 driver_config := some 7,
                 notifications := d0.notifications ++
                   [.stateChangeDriverEvent .DISCONNECTED] },
       .ok .vnone) :=
  configure_success_stores_config d0 cfgArgs 7 rfl rfl rfl

/-- C6: processing DISCONNECT in DISCONNECTED is a no-op: null result, no
transition, driver (including its traces) unchanged — an idempotent
convenience, not a usage fault. -/
theorem disconnect_in_disconnected_noop (d : PlatformDriver) (a : EventArgs)
    (hs : d.fsmState = .DISCONNECTED) :
    on_event d .DISCONNECT a = (d, .ok .vnone) := by
  simp [on_event, transitionTable, runHandler, hs]

/-- A base driver sitting in DISCONNECTED. -/
def dDisc : PlatformDriver :=
  { mkDriver basePlatformDriverClass with fsmState := .DISCONNECTED }

/-- Witness for C6 at a concrete DISCONNECTED driver. -/
theorem disconnect_in_disconnected_noop_witness :
    on_event dDisc .DISCONNECT noArgs = (dDisc, .ok .vnone) :=
  disconnect_in_disconnected_noop dDisc noArgs rfl

/-- C7: `_filter_capabilities` keeps only members of the capability enum,
and the base enum is empty, so the command list of
`get_resource_capabilities` is always empty in the base class (internal
ENTER/EXIT/CONFIGURE/CONNECT/DISCONNECT/CONNECTION_LOST events never
appear); the second returned element is the known parameter names. -/
theorem capabilities_filtered_empty_base :
    (∀ (has : PlatformDriverEvent → Bool) (l : List PlatformDriverEvent),
      (filter_capabilities has l).all has = true) ∧
    (∀ (d : PlatformDriver) (b : Bool),
      (get_resource_capabilities d b).1 = [] ∧
      (get_resource_capabilities d b).2 = d.param_dict) := by
  constructor
  · intro has l
    rw [List.all_eq_true]
    intro x hx
    exact (List.mem_filter.mp hx).2
  · intro d b
    constructor
    · simp [get_resource_capabilities, filter_capabilities,
        PlatformDriverCapability_has]
    · rfl

/-- C8: every abstract device primitive of the base driver (`connect`,
`disconnect`, `ping`, `get_attribute_values`, `set_attribute_values`,
`execute`, `get`, `get_external_checksum`) fails with
`NotImplementedError`, which is distinguishable from a
`PlatformConnectionException` transport fault. -/
theorem base_primitives_not_implemented :
    baseDeviceBehavior.connectResult = .error .notImplementedError ∧
    baseDeviceBehavior.disconnectResult = .error .notImplementedError ∧
    baseDeviceBehavior.pingResult = .error .notImplementedError ∧
    baseDeviceBehavior.getAttributeValuesResult = .error .notImplementedError ∧
    baseDeviceBehavior.setAttributeValuesResult = .error .notImplementedError ∧
    baseDeviceBehavior.executeResult = .error .notImplementedError ∧
    baseDeviceBehavior.getResult = .error .notImplementedError ∧
    baseDeviceBehavior.getExternalChecksumResult = .error .notImplementedError ∧
    Exc.notImplementedError ≠ Exc.platformConnectionException := by
  refine ⟨rfl, rfl, rfl, rfl, rfl, rfl, rfl, rfl, ?_⟩
  decide

/-- C2 counterexample: on the concrete transition UNCONFIGURED →
DISCONNECTED (a transition between two distinct states) exactly one
notification is delivered to the listener — the ENTER-triggered
state-change for the new state.  No EXIT-triggered notification for the
old state exists, so the claim that both an EXIT-triggered and an
ENTER-triggered notification are delivered is false. -/
theorem transition_single_notification_counterexample :
    (on_event d0 .CONFIGURE cfgArgs).1.fsmState = .DISCONNECTED ∧
    d0.fsmState = .UNCONFIGURED ∧
    (on_event d0 .CONFIGURE cfgArgs).1.notifications =
      [.stateChangeDriverEvent .DISCONNECTED] ∧
    (on_event d0 .CONFIGURE cfgArgs).1.notifications.length = 1 ∧
    DriverNotification.stateChangeDriverEvent .UNCONFIGURED ∉
      (on_event d0 .CONFIGURE cfgArgs).1.notifications := by
  refine ⟨rfl, rfl, rfl, rfl, ?_⟩
  decide

/-- C2 amended: on every transition between two distinct states the EXIT
hook of the old state is invoked but emits nothing (it is a no-op in the
base class); exactly one state-change notification is appended — the
ENTER-triggered one — and it carries the new state and is the last
notification emitted; previously emitted notifications are preserved. -/
theorem transition_enter_notification_only (d : PlatformDriver)
    (e : PlatformDriverEvent) (a : EventArgs)
    (hne : (on_event d e a).1.fsmState ≠ d.fsmState) :
    (on_event d e a).1.notifications.take d.notifications.length =
      d.notifications ∧
    stateChangeCount
      ((on_event d e a).1.notifications.drop d.notifications.length) = 1 ∧
    (on_event d e a).1.notifications.getLast? =
      some (.stateChangeDriverEvent (on_event d e a).1.fsmState) := by
  rcases hT : transitionTable d.fsmState e with _ | h
  · simp [on_event, hT] at hne
  · rcases hr : runHandler h d a with ⟨d1, r⟩
    have hfs : d1.fsmState = d.fsmState := by
      have hp := runHandler_preserves_fsmState h d a
      rw [hr] at hp
      exact hp
    match r with
    | .error exc =>
        rw [show (on_event d e a).1 = d1 by simp [on_event, hT, hr]] at hne
        exact absurd hfs hne
    | .ok (none, res) =>
        rw [show (on_event d e a).1 = d1 by simp [on_event, hT, hr]] at hne
        exact absurd hfs hne
    | .ok (some ns, res) =>
        obtain ⟨δ, hδ, hδc⟩ :=
          runHandler_transition_notifications h d a ns res (by rw [hr])
        rw [hr] at hδ
        have hoe : on_event d e a = (doTransition d1 a ns, .ok res) := by
          simp [on_event, hT, hr]
        rw [hoe, doTransition_eq]
        refine ⟨?_, ?_, ?_⟩
        · show (d1.notifications ++
              [DriverNotification.stateChangeDriverEvent ns]).take
            d.notifications.length = d.notifications
          rw [hδ, List.append_assoc]
          exact List.take_left _ _
        · show stateChangeCount ((d1.notifications ++
            [DriverNotification.stateChangeDriverEvent ns]).drop
              d.notifications.length) = 1
          rw [hδ, List.append_assoc, List.drop_left]
          unfold stateChangeCount at hδc ⊢
          rw [List.filter_append, List.length_append, hδc]
          rfl
        · show (d1.notifications ++
              [DriverNotification.stateChangeDriverEvent ns]).getLast? =
            some (DriverNotification.stateChangeDriverEvent ns)
          exact List.getLast?_concat _

/-- Witness for the amended C2 at the concrete UNCONFIGURED →
DISCONNECTED transition. -/
theorem transition_enter_notification_only_witness :
    (on_event d0 .CONFIGURE cfgArgs).1.notifications.take
      d0.notifications.length = d0.notifications ∧
    stateChangeCount
      ((on_event d0 .CONFIGURE cfgArgs).1.notifications.drop
        d0.notifications.length) = 1 ∧
    (on_event d0 .CONFIGURE cfgArgs).1.notifications.getLast? =
      some (.stateChangeDriverEvent (on_event d0 .CONFIGURE cfgArgs).1.fsmState) :=
  transition_enter_notification_only d0 .CONFIGURE cfgArgs (by decide)

/-- C1: in CONNECTED, the explicit CONNECTION_LOST event, and each of
PING/GET/SET/EXECUTE whose device primitive raises a
`PlatformConnectionException`, run the recovery protocol: `disconnect()`
is attempted exactly once (any fault it raises is swallowed), exactly one
asynchronous lost-connection notification is emitted (followed only by
the ENTER state-change notification of the new state), the next state is
DISCONNECTED, and the handler result is the (possibly null) disconnect
result. -/
theorem connected_connection_fault_recovery (d : PlatformDriver)
    (a : EventArgs) (hs : d.fsmState = .CONNECTED) :
    (on_event d .CONNECTION_LOST a =
      ({ d with fsmState := .DISCONNECTED,
                notifications := d.notifications ++
                  [.asyncAgentEventLostConnection,
                   .stateChangeDriverEvent .DISCONNECTED],
                deviceCalls := d.deviceCalls ++ [.disconnectCall] },
       .ok (match d.cls.device.disconnectResult with
            | .ok v => v
            | .error _ => Value.vnone))) ∧
    (d.cls.device.pingResult = .error .platformConnectionException →
      on_event d .PING a =
      ({ d with fsmState := .DISCONNECTED,
                notifications := d.notifications ++
                  [.asyncAgentEventLostConnection,
                   .stateChangeDriverEvent .DISCONNECTED],
                deviceCalls := d.deviceCalls ++ [.pingCall, .disconnectCall] },
       .ok (match d.cls.device.disconnectResult with
            | .ok v => v
            | .error _ => Value.vnone))) ∧
    (d.cls.device.getResult = .error .platformConnectionException →
      on_event d .GET a =
      ({ d with fsmState := .DISCONNECTED,
                notifications := d.notifications ++
                  [.asyncAgentEventLostConnection,
                   .stateChangeDriverEvent .DISCONNECTED],
                deviceCalls := d.deviceCalls ++ [.getCall, .disconnectCall] },
       .ok (match d.cls.device.disconnectResult with
            | .ok v => v
            | .error _ => Value.vnone))) ∧
    (∀ l, a.attrs = some l →
      d.cls.device.setAttributeValuesResult =
        .error .platformConnectionException →
      on_event d .SET a =
      ({ d with fsmState := .DISCONNECTED,
                notifications := d.notifications ++
                  [.asyncAgentEventLostConnection,
                   .stateChangeDriverEvent .DISCONNECTED],
                deviceCalls := d.deviceCalls ++ [.setCall, .disconnectCall] },
       .ok (match d.cls.device.disconnectResult with
            | .ok v => v
            | .error _ => Value.vnone))) ∧
    (∀ v vs, a.args = v :: vs →
      d.cls.device.executeResult = .error .platformConnectionException →
      on_event d .EXECUTE a =
      ({ d with fsmState := .DISCONNECTED,
                notifications := d.notifications ++
                  [.asyncAgentEventLostConnection,
                   .stateChangeDriverEvent .DISCONNECTED],
                deviceCalls := d.deviceCalls ++
                  [.executeCall, .disconnectCall] },
       .ok (match d.cls.device.disconnectResult with
            | .ok v => v
            | .error _ => Value.vnone))) := by
  refine ⟨?_, ?_, ?_, ?_, ?_⟩
  · simp [on_event, transitionTable, hs, runHandler,
      PlatformDriver.connection_lost, PlatformDriver.logCall,
      PlatformDriver.notify, doTransition_eq, List.append_assoc]
  · intro hp
    simp [on_event, transitionTable, hs, runHandler, hp,
      PlatformDriver.connection_lost, PlatformDriver.logCall,
      PlatformDriver.notify, doTransition_eq, List.append_assoc]
  · intro hg
    simp [on_event, transitionTable, hs, runHandler, hg,
      PlatformDriver.connection_lost, PlatformDriver.logCall,
      PlatformDriver.notify, doTransition_eq, List.append_assoc]
  · intro l hl hst
    simp [on_event, transitionTable, hs, runHandler, hl, hst,
      PlatformDriver.connection_lost, PlatformDriver.logCall,
      PlatformDriver.notify, doTransition_eq, List.append_assoc]
  · intro v vs hargs hx
    simp [on_event, transitionTable, hs, runHandler, hargs, hx,
      PlatformDriver.connection_lost, PlatformDriver.logCall,
      PlatformDriver.notify, doTransition_eq, List.append_assoc]

/-- A device whose ping and disconnect both raise connection faults. -/
def faultyDevice : DeviceBehavior :=
  { baseDeviceBehavior with
      pingResult := .error .platformConnectionException
      disconnectResult := .error .platformConnectionException }

/-- A connected driver over the faulty device. -/
def dFaulty : PlatformDriver :=
  { mkDriver { validate := fun _ => none, device := faultyDevice } with
      fsmState := .CONNECTED }

/-- Witness for C1: a ping hitting a lost connection, with the follow-up
disconnect also failing (its fault swallowed, result null). -/
theorem connected_connection_fault_recovery_witness :
    on_event dFaulty .PING noArgs =
      ({ dFaulty with
           fsmState := .DISCONNECTED,
           notifications := [.asyncAgentEventLostConnection,
             .stateChangeDriverEvent .DISCONNECTED],
           deviceCalls := [.pingCall, .disconnectCall] },
       .ok .vnone) :=
  (connected_connection_fault_recovery dFaulty noArgs rfl).2.1 rfl

/-- C9: CONNECT in DISCONNECTED — when `connect()` raises any exception,
it propagates uncaught, no transition happens and no notification is
emitted; when `connect()` succeeds, the driver transitions to CONNECTED
and the handler also returns the CONNECTED state value as its result. -/
theorem disconnected_connect_behavior (d : PlatformDriver) (a : EventArgs)
    (hs : d.fsmState = .DISCONNECTED) :
    (∀ e, d.cls.device.connectResult = .error e →
      on_event d .CONNECT a =
        ({ d with deviceCalls := d.deviceCalls ++ [.connectCall] },
         .error e)) ∧
    (∀ v, d.cls.device.connectResult = .ok v →
      on_event d .CONNECT a =
        ({ d with fsmState := .CONNECTED,
                  notifications := d.notifications ++
                    [.stateChangeDriverEvent .CONNECTED],
                  deviceCalls := d.deviceCalls ++ [.connectCall] },
         .ok (.vstate .CONNECTED))) := by
  constructor
  · intro e he
    simp [on_event, transitionTable, hs, runHandler, he,
      PlatformDriver.logCall]
  · intro v hv
    simp [on_event, transitionTable, hs, runHandler, hv,
      PlatformDriver.logCall, doTransition_eq]

/-- Witness for C9: the base driver's unimplemented `connect()` raises and
the exception propagates with no transition. -/
theorem disconnected_connect_behavior_witness :
    on_event dDisc .CONNECT noArgs =
      ({ dDisc with deviceCalls := [.connectCall] },
       .error .notImplementedError) :=
  (disconnected_connect_behavior dDisc noArgs rfl).1 .notImplementedError rfl

/-- C10: the CONNECTED command handlers catch only
`PlatformConnectionException`: any other exception raised by the device
primitive propagates uncaught, with no transition, no disconnect attempt
and no notification. -/
theorem connected_other_exceptions_propagate (d : PlatformDriver)
    (a : EventArgs) (hs : d.fsmState = .CONNECTED) (e : Exc)
    (hne : e ≠ .platformConnectionException) :
    (d.cls.device.pingResult = .error e →
      on_event d .PING a =
        ({ d with deviceCalls := d.deviceCalls ++ [.pingCall] }, .error e)) ∧
    (d.cls.device.getResult = .error e →
      on_event d .GET a =
        ({ d with deviceCalls := d.deviceCalls ++ [.getCall] }, .error e)) ∧
    (∀ l, a.attrs = some l →
      d.cls.device.setAttributeValuesResult = .error e →
      on_event d .SET a =
        ({ d with deviceCalls := d.deviceCalls ++ [.setCall] }, .error e)) ∧
    (∀ v vs, a.args = v :: vs →
      d.cls.device.executeResult = .error e →
      on_event d .EXECUTE a =
        ({ d with deviceCalls := d.deviceCalls ++ [.executeCall] },
         .error e)) := by
  refine ⟨?_, ?_, ?_, ?_⟩
  · intro hp
    simp [on_event, transitionTable, hs, runHandler, hp, hne,
      PlatformDriver.logCall]
  · intro hg
    simp [on_event, transitionTable, hs, runHandler, hg, hne,
      PlatformDriver.logCall]
  · intro l hl hst
    simp [on_event, transitionTable, hs, runHandler, hl, hst, hne,
      PlatformDriver.logCall]
  · intro v vs hargs hx
    simp [on_event, transitionTable, hs, runHandler, hargs, hx, hne,
      PlatformDriver.logCall]

/-- A base-class driver sitting in CONNECTED. -/
def dConnBase : PlatformDriver :=
  { mkDriver basePlatformDriverClass with fsmState := .CONNECTED }

/-- Witness for C10: the base driver's unimplemented `ping()` raises
`NotImplementedError`, which propagates, and nothing else happens. -/
theorem connected_other_exceptions_propagate_witness :
    on_event dConnBase .PING noArgs =
      ({ dConnBase with deviceCalls := [.pingCall] },
       .error .notImplementedError) :=
  (connected_other_exceptions_propagate dConnBase noArgs rfl
    .notImplementedError (by decide)).1 rfl

/-- A device whose `set_attribute_values` succeeds with a token value. -/
def okSetDevice : DeviceBehavior :=
  { baseDeviceBehavior with setAttributeValuesResult := .ok (.vnat 5) }

/-- A connected driver over that device. -/
def dSetOk : PlatformDriver :=
  { mkDriver { validate := fun _ => none, device := okSetDevice } with
      fsmState := .CONNECTED }

/-- Event arguments whose attrs entry is present but an empty list. -/
def emptyAttrsArgs : EventArgs :=
  { args := [], driver_config := none, attrs := some [], recursion := none }

/-- C5 counterexample: a SET event in CONNECTED whose attribute-list
argument is present but empty does NOT fail fast with a usage fault —
the handler only checks `attrs is None` — and the device primitive
`set_attribute_values` IS invoked, returning its result normally. -/
theorem set_empty_attrs_counterexample :
    (on_event dSetOk .SET emptyAttrsArgs).2 = .ok (.vnat 5) ∧
    (on_event dSetOk .SET emptyAttrsArgs).1.deviceCalls = [.setCall] ∧
    (on_event dSetOk .SET emptyAttrsArgs).1.fsmState = .CONNECTED ∧
    (on_event dSetOk .SET emptyAttrsArgs).1.notifications = [] :=
  ⟨rfl, rfl, rfl, rfl⟩

/-- C5 amended: in CONNECTED, a SET event whose attribute-list argument is
absent, and an EXECUTE event with no positional argument, each fail fast
with an FSM usage fault (distinct from a device connection fault) raised
to the caller, the driver left entirely unchanged (state CONNECTED, no
device primitive invoked, no notification emitted).  A present but empty
attribute list is NOT a usage fault: the SET handler invokes the
`set_attribute_values` primitive exactly once. -/
theorem set_execute_usage_faults (d : PlatformDriver) (a : EventArgs)
    (hs : d.fsmState = .CONNECTED) :
    (a.attrs = none →
      on_event d .SET a = (d, .error (.fsmError 2))) ∧
    (a.args = [] →
      on_event d .EXECUTE a = (d, .error (.fsmError 3))) ∧
    (∀ n, Exc.fsmError n ≠ Exc.platformConnectionException) ∧
    (∀ l, a.attrs = some l →
      ((on_event d .SET a).1.deviceCalls.filter isSetCall).length =
        (d.deviceCalls.filter isSetCall).length + 1) := by
  refine ⟨?_, ?_, ?_, ?_⟩
  · intro hat
    simp [on_event, transitionTable, hs, runHandler, hat]
  · intro hargs
    simp [on_event, transitionTable, hs, runHandler, hargs]
  · intro n
    simp
  · intro l hl
    cases hsr : d.cls.device.setAttributeValuesResult with
    | ok v =>
        simp [on_event, transitionTable, hs, runHandler, hl, hsr,
          PlatformDriver.logCall, List.filter_append, isSetCall]
    | error er =>
        by_cases he : er = .platformConnectionException
        · simp [on_event, transitionTable, hs, runHandler, hl, hsr, he,
            PlatformDriver.connection_lost, PlatformDriver.logCall,
            PlatformDriver.notify, doTransition_eq, List.filter_append,
            isSetCall, List.append_assoc]
        · simp [on_event, transitionTable, hs, runHandler, hl, hsr, he,
            PlatformDriver.logCall, List.filter_append, isSetCall]

/-- Witness for the amended C5: absent attrs and missing command argument
each raise the usage fault with the driver untouched. -/
theorem set_execute_usage_faults_witness :
    on_event dConnBase .SET noArgs = (dConnBase, .error (.fsmError 2)) ∧
    on_event dConnBase .EXECUTE noArgs = (dConnBase, .error (.fsmError 3)) :=
  ⟨(set_execute_usage_faults dConnBase noArgs rfl).1 rfl,
   (set_execute_usage_faults dConnBase noArgs rfl).2.1 rfl⟩
